import Mathlib

/-!
Shallow embedding of the two Playwright verification scripts of the
spectre-explorer repository: `verification/verify_coloring.py`
(`verify_coloring_ui`) and `verification/verify_editor.py` (`verify_editor`).

Each script is a straight-line sequence of browser-automation calls.  We
model a run by the sequence of observable effects it performs (navigation,
successful selector waits, option selections, fixed settling delays,
clicks, screenshot writes, closing the browser) together with whether the
script returns normally or lets an exception propagate to its caller.

The environment of a run records, for every fallible automation call in
program order, whether that call succeeds (the awaited element appears
within the call's timeout / the click or select target exists) or fails
(the underlying library raises).  Console messages and page errors
delivered by the page are a separate input: the scripts attach listeners
that print them and do nothing else with them.
-/

/-- Observable effects of a script run, in program order. -/
inductive Event where
  | goto (url : String)
  | waitForSelector (selector : String) (timeoutMs : Option Nat)
  | selectOption (value : String)
  | waitForTimeout (ms : Nat)
  | screenshot (path : String)
  | click (selector : String)
  | browserClose
deriving DecidableEq

/-- Whether the script function returned normally or an exception escaped
to its caller. -/
inductive Outcome where
  | returned
  | raised
deriving DecidableEq

/-- Console messages and page errors delivered by the page during a run.
Both scripts attach `page.on("console", ...)` and `page.on("pageerror", ...)`
listeners for these. -/
structure PageEvents where
  consoleMessages : List String
  pageErrors : List String
deriving DecidableEq

/-- The console listener of both scripts:
`lambda msg: print(f"Console: \x7bmsg.text\x7d")`. -/
def consoleHandler (msg : String) : String := "Console: " ++ msg

/-- The pageerror listener of both scripts:
`lambda exc: print(f"PageError: \x7bexc\x7d")`. -/
def pageErrorHandler (exc : String) : String := "PageError: " ++ exc

/-- Everything the two listeners print: each console message and page error,
passed through the corresponding print-only handler. -/
def listenerOutput (ev : PageEvents) : List String :=
  ev.consoleMessages.map consoleHandler ++ ev.pageErrors.map pageErrorHandler

/-- The fixed local URL both scripts navigate to. -/
def appUrl : String := "http://localhost:4173/"

/-- The selector of the button that opens the rule editor:
`button[title='Edit Rule']`. -/
def editRuleSel : String := "button[title=\x27Edit Rule\x27]"

/-- Prefix a partial run with effects that always happen before it. -/
def prepend (evs : List Event) (rest : List Event × Outcome) : List Event × Outcome :=
  (evs ++ rest.1, rest.2)

/-- A fallible automation call outside any `try`: on success its effects
`onSuccess` happen and the run continues with `rest`; on failure the
library's exception propagates, ending the run with outcome `raised`. -/
def attempt (ok : Bool) (onSuccess : List Event) (rest : List Event × Outcome) :
    List Event × Outcome :=
  if ok then (onSuccess ++ rest.1, rest.2) else ([], .raised)

/-- A fallible automation call wrapped in `try/except` whose handler
performs `onFailure` (a diagnostic screenshot) and then executes a bare
`return`: on success the run continues with `rest`; on failure the handler
runs and the script returns normally. -/
def attemptOr (ok : Bool) (onSuccess onFailure : List Event) (rest : List Event × Outcome) :
    List Event × Outcome :=
  if ok then (onSuccess ++ rest.1, rest.2) else (onFailure, .returned)

/-- Outcome of each fallible call of `verify_coloring_ui`, in program
order: the 5000 ms canvas wait and the default-timeout wait for the
"Coloring Rule" text marker.  Both are wrapped in `try/except`; the later
select/screenshot steps run against the elements those waits established. -/
structure ColoringEnv where
  canvasFound : Bool
  uiFound : Bool
deriving DecidableEq

/-- The effect trace and outcome of `verify_coloring_ui`
(verification/verify_coloring.py, lines 4-55), as a function of which
guarded waits succeed. -/
def coloringTrace (env : ColoringEnv) : List Event × Outcome :=
  prepend [.goto appUrl] <|
  attemptOr env.canvasFound
    [.waitForSelector "canvas" (some 5000)]
    [.screenshot "verification/error_state.png"] <|
  attemptOr env.uiFound
    [.waitForSelector "text=Coloring Rule" none]
    [.screenshot "verification/error_state_ui.png"] <|
  ([.selectOption "random", .waitForTimeout 1000,
    .screenshot "verification/random_coloring.png",
    .selectOption "four-color", .waitForTimeout 1000,
    .screenshot "verification/four_color.png",
    .selectOption "orientation-gradient", .waitForTimeout 1000,
    .screenshot "verification/gradient.png",
    .browserClose], .returned)

/-- A full run of the coloring script: the effect trace and outcome, plus
what its console/pageerror listeners print for the delivered page events. -/
def verify_coloring_ui (env : ColoringEnv) (ev : PageEvents) :
    (List Event × Outcome) × List String :=
  (coloringTrace env, listenerOutput ev)

/-- Outcome of each fallible call of `verify_editor`, in program order.
Only the first (the 5000 ms canvas wait) is wrapped in `try/except`; every
later call raises to the caller on failure. -/
structure EditorEnv where
  canvasFound : Bool
  selectGradientOk : Bool
  clickEditRule1Ok : Bool
  gradientMarkerFound : Bool
  clickCancelOk : Bool
  selectOrientationOk : Bool
  clickEditRule2Ok : Bool
  orientationMarkerFound : Bool
deriving DecidableEq

/-- The effect trace and outcome of `verify_editor`
(verification/verify_editor.py, lines 3-51), as a function of which
automation calls succeed. -/
def editorTrace (env : EditorEnv) : List Event × Outcome :=
  prepend [.goto appUrl] <|
  attemptOr env.canvasFound
    [.waitForSelector "canvas" (some 5000)]
    [.screenshot "verification/error_start.png"] <|
  attempt env.selectGradientOk
    [.selectOption "orientation-gradient", .waitForTimeout 500] <|
  attempt env.clickEditRule1Ok [.click editRuleSel] <|
  attempt env.gradientMarkerFound
    [.waitForSelector "text=Edit Gradient" (some 2000),
     .screenshot "verification/editor_gradient.png"] <|
  attempt env.clickCancelOk [.click "text=Cancel", .waitForTimeout 500] <|
  attempt env.selectOrientationOk
    [.selectOption "orientation", .waitForTimeout 500] <|
  attempt env.clickEditRule2Ok [.click editRuleSel] <|
  attempt env.orientationMarkerFound
    [.waitForSelector "text=Edit Orientation Colors" (some 2000),
     .screenshot "verification/editor_orientation.png"] <|
  ([.browserClose], .returned)

/-- A full run of the editor script: the effect trace and outcome, plus
what its console/pageerror listeners print for the delivered page events. -/
def verify_editor (env : EditorEnv) (ev : PageEvents) :
    (List Event × Outcome) × List String :=
  (editorTrace env, listenerOutput ev)

/-- The screenshot files a trace writes, in order. -/
def screenshotsOf (t : List Event) : List String :=
  t.filterMap fun e => match e with | .screenshot p => some p | _ => none

/-- The option values a trace selects, in order. -/
def selectionsOf (t : List Event) : List String :=
  t.filterMap fun e => match e with | .selectOption v => some v | _ => none

/-- Modelled from the spec: the application under test (the page with the
canvas, the "Coloring Rule" dropdown and the rule-editing dialog) is not
part of the verification sources.  Per the spec's external-interface
contract, the button titled "Edit Rule" opens the edit dialog and the
"Cancel" control dismisses it (removes it from the page); no other script
effect changes whether the dialog is present. -/
def dialogStep (dialogOpen : Bool) (e : Event) : Bool :=
  match e with
  | .click sel =>
      if sel = editRuleSel then true
      else if sel = "text=Cancel" then false
      else dialogOpen
  | _ => dialogOpen

/-- Modelled from the spec: whether the edit dialog is present in the page
after the given effects, starting from the freshly loaded page (no dialog). -/
def dialogOpenAfter (t : List Event) : Bool :=
  t.foldl dialogStep false

/-- C1: in every run of the coloring script in which the canvas wait and
the "Coloring Rule" marker wait both succeed, the script selects the three
coloring modes in the order random, four-color, orientation-gradient, after
each selection waits a fixed 1-second settling delay and then writes the
screenshot file specific to that mode (random_coloring.png, four_color.png,
gradient.png — exactly these three, in this order). -/
theorem coloring_modes_in_order (env : ColoringEnv) (ev : PageEvents) :
    env.canvasFound = true → env.uiFound = true →
    (verify_coloring_ui env ev).1 =
      ([.goto appUrl, .waitForSelector "canvas" (some 5000),
        .waitForSelector "text=Coloring Rule" none,
        .selectOption "random", .waitForTimeout 1000,
        .screenshot "verification/random_coloring.png",
        .selectOption "four-color", .waitForTimeout 1000,
        .screenshot "verification/four_color.png",
        .selectOption "orientation-gradient", .waitForTimeout 1000,
        .screenshot "verification/gradient.png",
        .browserClose], .returned) ∧
    screenshotsOf (verify_coloring_ui env ev).1.1 =
      ["verification/random_coloring.png", "verification/four_color.png",
       "verification/gradient.png"] ∧
    selectionsOf (verify_coloring_ui env ev).1.1 =
      ["random", "four-color", "orientation-gradient"] := by
  obtain ⟨c, u⟩ := env
  revert c u
  dsimp only [verify_coloring_ui]
  decide

/-- Witness for C1 at the run where both waits succeed. -/
theorem coloring_modes_in_order_witness :
    (verify_coloring_ui ⟨true, true⟩ ⟨[], []⟩).1 =
      ([.goto appUrl, .waitForSelector "canvas" (some 5000),
        .waitForSelector "text=Coloring Rule" none,
        .selectOption "random", .waitForTimeout 1000,
        .screenshot "verification/random_coloring.png",
        .selectOption "four-color", .waitForTimeout 1000,
        .screenshot "verification/four_color.png",
        .selectOption "orientation-gradient", .waitForTimeout 1000,
        .screenshot "verification/gradient.png",
        .browserClose], .returned) ∧
    screenshotsOf (verify_coloring_ui ⟨true, true⟩ ⟨[], []⟩).1.1 =
      ["verification/random_coloring.png", "verification/four_color.png",
       "verification/gradient.png"] ∧
    selectionsOf (verify_coloring_ui ⟨true, true⟩ ⟨[], []⟩).1.1 =
      ["random", "four-color", "orientation-gradient"] :=
  coloring_modes_in_order ⟨true, true⟩ ⟨[], []⟩ rfl rfl

/-- C2: if the canvas element does not appear within 5000 ms, the coloring
script writes exactly one screenshot file, verification/error_state.png,
performs no mode selection, and returns normally with no exception
propagating to its caller. -/
theorem coloring_canvas_timeout (env : ColoringEnv) (ev : PageEvents) :
    env.canvasFound = false →
    (verify_coloring_ui env ev).1.1 =
      [.goto appUrl, .screenshot "verification/error_state.png"] ∧
    screenshotsOf (verify_coloring_ui env ev).1.1 =
      ["verification/error_state.png"] ∧
    selectionsOf (verify_coloring_ui env ev).1.1 = [] ∧
    (verify_coloring_ui env ev).1.2 = .returned := by
  obtain ⟨c, u⟩ := env
  revert c u
  dsimp only [verify_coloring_ui]
  decide

/-- Witness for C2 at the run where the canvas wait times out. -/
theorem coloring_canvas_timeout_witness :
    (verify_coloring_ui ⟨false, true⟩ ⟨[], []⟩).1.1 =
      [.goto appUrl, .screenshot "verification/error_state.png"] ∧
    screenshotsOf (verify_coloring_ui ⟨false, true⟩ ⟨[], []⟩).1.1 =
      ["verification/error_state.png"] ∧
    selectionsOf (verify_coloring_ui ⟨false, true⟩ ⟨[], []⟩).1.1 = [] ∧
    (verify_coloring_ui ⟨false, true⟩ ⟨[], []⟩).1.2 = .returned :=
  coloring_canvas_timeout ⟨false, true⟩ ⟨[], []⟩ rfl

/-- C3: if the canvas wait succeeds but the "Coloring Rule" marker does not
appear within its default timeout, the coloring script writes exactly one
screenshot file, verification/error_state_ui.png, selects no coloring mode,
and returns normally with no exception raised to its caller. -/
theorem coloring_marker_timeout (env : ColoringEnv) (ev : PageEvents) :
    env.canvasFound = true → env.uiFound = false →
    (verify_coloring_ui env ev).1.1 =
      [.goto appUrl, .waitForSelector "canvas" (some 5000),
       .screenshot "verification/error_state_ui.png"] ∧
    screenshotsOf (verify_coloring_ui env ev).1.1 =
      ["verification/error_state_ui.png"] ∧
    selectionsOf (verify_coloring_ui env ev).1.1 = [] ∧
    (verify_coloring_ui env ev).1.2 = .returned := by
  obtain ⟨c, u⟩ := env
  revert c u
  dsimp only [verify_coloring_ui]
  decide

/-- Witness for C3 at the run where only the marker wait times out. -/
theorem coloring_marker_timeout_witness :
    (verify_coloring_ui ⟨true, false⟩ ⟨[], []⟩).1.1 =
      [.goto appUrl, .waitForSelector "canvas" (some 5000),
       .screenshot "verification/error_state_ui.png"] ∧
    screenshotsOf (verify_coloring_ui ⟨true, false⟩ ⟨[], []⟩).1.1 =
      ["verification/error_state_ui.png"] ∧
    selectionsOf (verify_coloring_ui ⟨true, false⟩ ⟨[], []⟩).1.1 = [] ∧
    (verify_coloring_ui ⟨true, false⟩ ⟨[], []⟩).1.2 = .returned :=
  coloring_marker_timeout ⟨true, false⟩ ⟨[], []⟩ rfl rfl

/-- C10: for every run of the coloring script in which each wait either
succeeds or times out, the screenshot files written are exactly one of
three pairwise disjoint sets: the error-state file, the UI-error file, or
the three per-mode files; an error screenshot and a per-mode screenshot
never occur in the same run. -/
theorem coloring_runs_partition (env : ColoringEnv) (ev : PageEvents) :
    (screenshotsOf (verify_coloring_ui env ev).1.1 =
        ["verification/error_state.png"] ∨
      screenshotsOf (verify_coloring_ui env ev).1.1 =
        ["verification/error_state_ui.png"] ∨
      screenshotsOf (verify_coloring_ui env ev).1.1 =
        ["verification/random_coloring.png", "verification/four_color.png",
         "verification/gradient.png"]) ∧
    List.inter ["verification/error_state.png"]
      ["verification/error_state_ui.png"] = [] ∧
    List.inter ["verification/error_state.png"]
      ["verification/random_coloring.png", "verification/four_color.png",
       "verification/gradient.png"] = [] ∧
    List.inter ["verification/error_state_ui.png"]
      ["verification/random_coloring.png", "verification/four_color.png",
       "verification/gradient.png"] = [] := by
  obtain ⟨c, u⟩ := env
  revert c u
  dsimp only [verify_coloring_ui]
  decide

/-- C4: the first editor screenshot, verification/editor_gradient.png, is
written only after the script has selected "orientation-gradient", clicked
the button titled "Edit Rule", and the dialog marker text "Edit Gradient"
has become visible within 2000 ms; if the marker does not become visible
within 2000 ms, that screenshot is not written. -/
theorem editor_gradient_shot_gated (env : EditorEnv) (ev : PageEvents) :
    (Event.screenshot "verification/editor_gradient.png" ∈ (verify_editor env ev).1.1 →
      List.Sublist
        [.selectOption "orientation-gradient", .click editRuleSel,
         .waitForSelector "text=Edit Gradient" (some 2000),
         .screenshot "verification/editor_gradient.png"]
        (verify_editor env ev).1.1) ∧
    (env.gradientMarkerFound = false →
      Event.screenshot "verification/editor_gradient.png" ∉ (verify_editor env ev).1.1) := by
  obtain ⟨c, sg, c1, gm, cc, so, c2, om⟩ := env
  revert c sg c1 gm cc so c2 om
  dsimp only [verify_editor]
  decide

/-- Witness for C4: the ordering fact at the all-successful run, and the
absence of the screenshot when the gradient marker wait times out. -/
theorem editor_gradient_shot_gated_witness :
    List.Sublist
      [.selectOption "orientation-gradient", .click editRuleSel,
       .waitForSelector "text=Edit Gradient" (some 2000),
       .screenshot "verification/editor_gradient.png"]
      (verify_editor ⟨true, true, true, true, true, true, true, true⟩ ⟨[], []⟩).1.1 ∧
    Event.screenshot "verification/editor_gradient.png" ∉
      (verify_editor ⟨true, true, true, false, true, true, true, true⟩ ⟨[], []⟩).1.1 :=
  ⟨(editor_gradient_shot_gated ⟨true, true, true, true, true, true, true, true⟩
      ⟨[], []⟩).1 (by decide),
   (editor_gradient_shot_gated ⟨true, true, true, false, true, true, true, true⟩
      ⟨[], []⟩).2 rfl⟩

/-- C5: in every run of the editor script, at the moment the script
performs the second mode selection (the select of "orientation") the edit
dialog is no longer present in the page: on every path reaching that
selection the "Cancel" click has already occurred, and per the
spec-modelled page behaviour the Cancel control removes the dialog. -/
theorem editor_cancel_closes_dialog (env : EditorEnv) (ev : PageEvents) :
    ∀ i : Fin (verify_editor env ev).1.1.length,
      (verify_editor env ev).1.1.get i = Event.selectOption "orientation" →
      dialogOpenAfter ((verify_editor env ev).1.1.take i.val) = false := by
  obtain ⟨c, sg, c1, gm, cc, so, c2, om⟩ := env
  revert c sg c1 gm cc so c2 om
  dsimp only [verify_editor]
  decide

/-- Witness for C5: at the all-successful run, the second mode selection is
the tenth effect, and the dialog is closed at that point. -/
theorem editor_cancel_closes_dialog_witness :
    dialogOpenAfter
      ((verify_editor ⟨true, true, true, true, true, true, true, true⟩
          ⟨[], []⟩).1.1.take 9) = false :=
  editor_cancel_closes_dialog ⟨true, true, true, true, true, true, true, true⟩
    ⟨[], []⟩ ⟨9, by decide⟩ (by decide)

/-- C8: in every run of the editor script in which all waited-for elements
appear, the script performs in order: select "orientation-gradient", click
the "Edit Rule" button, wait up to 2 s for "Edit Gradient", screenshot
editor_gradient.png, click "Cancel", select "orientation", click "Edit
Rule" again, wait for "Edit Orientation Colors", screenshot
editor_orientation.png — producing exactly these two screenshot files. -/
theorem editor_full_run (env : EditorEnv) (ev : PageEvents) :
    env.canvasFound = true → env.selectGradientOk = true →
    env.clickEditRule1Ok = true → env.gradientMarkerFound = true →
    env.clickCancelOk = true → env.selectOrientationOk = true →
    env.clickEditRule2Ok = true → env.orientationMarkerFound = true →
    (verify_editor env ev).1 =
      ([.goto appUrl, .waitForSelector "canvas" (some 5000),
        .selectOption "orientation-gradient", .waitForTimeout 500,
        .click editRuleSel,
        .waitForSelector "text=Edit Gradient" (some 2000),
        .screenshot "verification/editor_gradient.png",
        .click "text=Cancel", .waitForTimeout 500,
        .selectOption "orientation", .waitForTimeout 500,
        .click editRuleSel,
        .waitForSelector "text=Edit Orientation Colors" (some 2000),
        .screenshot "verification/editor_orientation.png",
        .browserClose], .returned) ∧
    screenshotsOf (verify_editor env ev).1.1 =
      ["verification/editor_gradient.png", "verification/editor_orientation.png"] := by
  obtain ⟨c, sg, c1, gm, cc, so, c2, om⟩ := env
  intro h1 h2 h3 h4 h5 h6 h7 h8
  subst h1; subst h2; subst h3; subst h4; subst h5; subst h6; subst h7; subst h8
  dsimp only [verify_editor]
  decide

/-- Witness for C8 at the all-successful run. -/
theorem editor_full_run_witness :
    (verify_editor ⟨true, true, true, true, true, true, true, true⟩ ⟨[], []⟩).1 =
      ([.goto appUrl, .waitForSelector "canvas" (some 5000),
        .selectOption "orientation-gradient", .waitForTimeout 500,
        .click editRuleSel,
        .waitForSelector "text=Edit Gradient" (some 2000),
        .screenshot "verification/editor_gradient.png",
        .click "text=Cancel", .waitForTimeout 500,
        .selectOption "orientation", .waitForTimeout 500,
        .click editRuleSel,
        .waitForSelector "text=Edit Orientation Colors" (some 2000),
        .screenshot "verification/editor_orientation.png",
        .browserClose], .returned) ∧
    screenshotsOf
      (verify_editor ⟨true, true, true, true, true, true, true, true⟩ ⟨[], []⟩).1.1 =
      ["verification/editor_gradient.png", "verification/editor_orientation.png"] :=
  editor_full_run ⟨true, true, true, true, true, true, true, true⟩ ⟨[], []⟩
    rfl rfl rfl rfl rfl rfl rfl rfl

/-- C9: only the initial canvas wait of the editor script is guarded.  On a
canvas timeout the script writes verification/error_start.png and returns
normally; if any later step fails, the exception propagates out of
verify_editor and no diagnostic error screenshot is written. -/
theorem editor_unguarded_after_canvas (env : EditorEnv) (ev : PageEvents) :
    (env.canvasFound = false →
      (verify_editor env ev).1.2 = .returned ∧
      screenshotsOf (verify_editor env ev).1.1 = ["verification/error_start.png"]) ∧
    (env.canvasFound = true →
      (env.selectGradientOk && env.clickEditRule1Ok && env.gradientMarkerFound &&
        env.clickCancelOk && env.selectOrientationOk && env.clickEditRule2Ok &&
        env.orientationMarkerFound) = false →
      (verify_editor env ev).1.2 = .raised ∧
      "verification/error_start.png" ∉ screenshotsOf (verify_editor env ev).1.1) := by
  obtain ⟨c, sg, c1, gm, cc, so, c2, om⟩ := env
  revert c sg c1 gm cc so c2 om
  dsimp only [verify_editor]
  decide

/-- Witness for C9: the canvas-timeout run returns normally with the error
screenshot; a run failing at the first marker wait raises with no error
screenshot. -/
theorem editor_unguarded_after_canvas_witness :
    ((verify_editor ⟨false, true, true, true, true, true, true, true⟩ ⟨[], []⟩).1.2 =
        .returned ∧
      screenshotsOf
        (verify_editor ⟨false, true, true, true, true, true, true, true⟩ ⟨[], []⟩).1.1 =
        ["verification/error_start.png"]) ∧
    ((verify_editor ⟨true, true, true, false, true, true, true, true⟩ ⟨[], []⟩).1.2 =
        .raised ∧
      "verification/error_start.png" ∉
        screenshotsOf
          (verify_editor ⟨true, true, true, false, true, true, true, true⟩ ⟨[], []⟩).1.1) :=
  ⟨(editor_unguarded_after_canvas ⟨false, true, true, true, true, true, true, true⟩
      ⟨[], []⟩).1 rfl,
   (editor_unguarded_after_canvas ⟨true, true, true, false, true, true, true, true⟩
      ⟨[], []⟩).2 rfl rfl⟩

/-- C6: the browser session is not closed on all exit paths: the coloring
script has an exit path (the early return on the canvas-wait timeout) and
the editor script has an exit path (an exception raised before the final
close call) on which browser.close() is never invoked. -/
theorem browser_not_closed_on_error_paths :
    (∃ (env : ColoringEnv) (ev : PageEvents),
      Event.browserClose ∉ (verify_coloring_ui env ev).1.1 ∧
      (verify_coloring_ui env ev).1.2 = .returned) ∧
    (∃ (env : EditorEnv) (ev : PageEvents),
      Event.browserClose ∉ (verify_editor env ev).1.1 ∧
      (verify_editor env ev).1.2 = .raised) :=
  ⟨⟨⟨false, true⟩, ⟨[], []⟩, by decide, by decide⟩,
   ⟨⟨true, true, true, false, true, true, true, true⟩, ⟨[], []⟩, by decide, by decide⟩⟩

/-- C7: console messages and page errors delivered by the page are only
printed (through the two print-only listener handlers) and never inspected:
two runs of either script that differ only in the delivered page events
have identical effect traces, screenshot sets and outcomes. -/
theorem console_events_not_inspected (ce : ColoringEnv) (ee : EditorEnv)
    (ev1 ev2 : PageEvents) :
    (verify_coloring_ui ce ev1).1 = (verify_coloring_ui ce ev2).1 ∧
    (verify_editor ee ev1).1 = (verify_editor ee ev2).1 ∧
    screenshotsOf (verify_coloring_ui ce ev1).1.1 =
      screenshotsOf (verify_coloring_ui ce ev2).1.1 ∧
    screenshotsOf (verify_editor ee ev1).1.1 =
      screenshotsOf (verify_editor ee ev2).1.1 ∧
    (verify_coloring_ui ce ev1).2 = listenerOutput ev1 ∧
    (verify_editor ee ev1).2 = listenerOutput ev1 :=
  ⟨rfl, rfl, rfl, rfl, rfl, rfl⟩
